import Mathlib

/-!
Shallow embedding of the reservation endpoint of
`final-product-reservation` (the `action` handler in the
variant-resolution revision of the reserve route, which the design notes
single out as the reference behavior), together with theorems settling
the specification claims about it.
-/

namespace Reservation

/-- JavaScript values as they occur in the parsed JSON request body.
Missing body fields destructure to `vUndefined`. -/
inductive JsValue where
  | vNull
  | vUndefined
  | vBool (b : Bool)
  | vNum (n : Int)
  | vStr (s : String)
  deriving DecidableEq

/-- JavaScript truthiness, as used by the guard
`if (!productId || !cartId || !shop)` and by `customerId?.toString() || null`. -/
def JsValue.truthy : JsValue → Bool
  | .vNull => false
  | .vUndefined => false
  | .vBool b => b
  | .vNum n => n != 0
  | .vStr s => s != ""

/-- JavaScript string conversion (`.toString()` on a defined value, and the
template-literal interpolation used for the variant GID). -/
def JsValue.jsToString : JsValue → String
  | .vNull => "null"
  | .vUndefined => "undefined"
  | .vBool true => "true"
  | .vBool false => "false"
  | .vNum n => toString n
  | .vStr s => s

/-- Embeds `customerId?.toString() || null` from the upsert arguments:
optional chaining short-circuits `null`/`undefined` to `undefined`, which
`|| null` turns into `null`; a defined value is converted to a string first,
and only a falsy string (the empty string) falls back to `null`. -/
def normalizeCustomerId : JsValue → Option String
  | .vNull => none
  | .vUndefined => none
  | v => if v.jsToString = "" then none else some v.jsToString

/-- Request body fields destructured by
`const { productId, cartId, customerId, shop } = body`. -/
structure ReservationRequest where
  productId : JsValue
  cartId : JsValue
  customerId : JsValue
  shop : JsValue
  deriving DecidableEq

/-- One entry of the `userErrors` list of the `metafieldsSet` mutation. -/
structure UserError where
  field : String
  message : String
  deriving DecidableEq

/-- Payload at `data.metafieldsSet` of the mutation response; only the
`userErrors` member is read by the handler, and it may itself be absent. -/
structure MetafieldsSetPayload where
  userErrors : Option (List UserError)
  deriving DecidableEq

/-- Member `data` of the mutation response JSON. -/
structure MutationData where
  metafieldsSet : Option MetafieldsSetPayload
  deriving DecidableEq

/-- Mutation response JSON (`responseJson`); the `data` member may be absent. -/
structure MutationResponse where
  data : Option MutationData
  deriving DecidableEq

/-- Embeds `responseJson?.data?.metafieldsSet?.userErrors || []`: every
optional-chaining step that misses yields `undefined`, and `|| []`
replaces an absent list by the empty list. -/
def getUserErrors (r : Option MutationResponse) : List UserError :=
  ((((r.bind MutationResponse.data).bind MutationData.metafieldsSet).bind
      MetafieldsSetPayload.userErrors).getD [])

/-- One element of the `metafields` array passed to the `metafieldsSet`
mutation (`type` is spelled `mtype` because `namespace` and `type` carry
meaning in Lean). -/
structure Metafield where
  ownerId : String
  nspace : String
  key : String
  value : String
  mtype : String
  deriving DecidableEq

/-- The two-element `metafields` array built by the handler: both entries
share the same owner id; values are `is_reserved=true` and the cart id. -/
def metafields (ownerId cartValue : String) : List Metafield :=
  [{ ownerId := ownerId, nspace := "reservation", key := "is_reserved",
     value := "true", mtype := "boolean" },
   { ownerId := ownerId, nspace := "reservation", key := "cart_id",
     value := cartValue, mtype := "single_line_text_field" }]

/-- A persisted `productReservation` row.  Timestamps are abstract ticks. -/
structure DbRecord where
  id : Nat
  productId : String
  cartId : String
  customerId : Option String
  isReserved : Bool
  createdAt : Nat
  updatedAt : Nat
  deriving DecidableEq

/-- Local database state: the `productReservation` table plus the id
generator. -/
structure Db where
  records : List DbRecord
  nextId : Nat
  deriving DecidableEq

/-- Match on the compound unique key `productId_cartId`. -/
def keyMatches (pid cid : String) (r : DbRecord) : Bool :=
  r.productId == pid && r.cartId == cid

/-- Field rewrite applied by the `update` branch of the upsert: exactly
`isReserved`, `customerId` and `updatedAt` change. -/
def updateRec (cust : Option String) (now : Nat) (x : DbRecord) : DbRecord :=
  { x with isReserved := true, customerId := cust, updatedAt := now }

/-- Record inserted by the `create` branch of the upsert. -/
def createRec (id : Nat) (pid cid : String) (cust : Option String)
    (now : Nat) : DbRecord :=
  { id := id, productId := pid, cartId := cid, customerId := cust,
    isReserved := true, createdAt := now, updatedAt := now }

/-- Conflict-resolution map applied to the table by the `update` branch:
it rewrites exactly the records matching the unique key. -/
def upsertMap (pid cid : String) (cust : Option String) (now : Nat)
    (x : DbRecord) : DbRecord :=
  if keyMatches pid cid x then updateRec cust now x else x

/-- Modelled from the spec: Prisma's `upsert` on the unique key
`productId_cartId` (the Prisma schema itself is not among the source
files).  Per the spec's persistence-store interface, on a key match the
`update` branch rewrites `isReserved`, `customerId` and `updatedAt` of the
matching record; otherwise the `create` branch inserts a fresh record with
a generated `id` and `createdAt`/`updatedAt` set to the current time.
Returns the affected record together with the new table state. -/
def prismaUpsert (db : Db) (pid cid : String) (cust : Option String)
    (now : Nat) : DbRecord × Db :=
  match db.records.find? (keyMatches pid cid) with
  | some r =>
      (updateRec cust now r,
       { db with records := db.records.map (upsertMap pid cid cust now) })
  | none =>
      (createRec db.nextId pid cid cust now,
       { records := db.records ++ [createRec db.nextId pid cid cust now],
         nextId := db.nextId + 1 })

/-- The reservation object embedded in the success response: exactly the
fields the handler copies out of the persisted record. -/
structure ReservationView where
  id : Nat
  productId : String
  cartId : String
  customerId : Option String
  isReserved : Bool
  createdAt : Nat
  deriving DecidableEq

/-- Projection of a persisted record onto the success-response payload. -/
def toView (r : DbRecord) : ReservationView :=
  { id := r.id, productId := r.productId, cartId := r.cartId,
    customerId := r.customerId, isReserved := r.isReserved,
    createdAt := r.createdAt }

/-- Value of the `details` member of a failure response: either the
platform's field/message pairs or a caught error's message string. -/
inductive FailureDetails where
  | fieldErrors (errs : List UserError)
  | message (msg : String)
  deriving DecidableEq

/-- Observable outcome of one invocation of the handler. -/
inductive ActionResult where
  | success (status : Nat) (reservation : ReservationView)
  | failure (status : Nat) (error : String) (details : Option FailureDetails)
  deriving DecidableEq

/-- Response produced by the generic `catch` block. -/
def internalError (msg : String) : ActionResult :=
  .failure 500 "Internal server error" (some (.message msg))

/-- Externally observable side-effecting calls issued by the handler,
in the order they are issued. -/
inductive Event where
  | authenticate
  | variantQuery (variantGid : String)
  | metafieldsSet (fields : List Metafield)
  | dbUpsert (productId : String) (cartId : String)
  deriving DecidableEq

/-- Behavior of the external collaborators during one invocation: whether
each awaited call throws (and with what message), what product id the
variant query resolves (the value at
`variantResponse?.data?.productVariant?.product?.id`, absent when the
chain misses), and the mutation's response JSON. -/
structure Env where
  authThrows : Option String
  variantQueryThrows : Option String
  variantProductId : String → Option String
  mutationThrows : Option String
  mutationResponse : Option MutationResponse
  upsertThrows : Option String

/-- Embeds `gid://shopify/ProductVariant/` followed by the interpolated
raw product-or-variant id. -/
def variantGid (req : ReservationRequest) : String :=
  "gid://shopify/ProductVariant/" ++ req.productId.jsToString

/-- Shallow embedding of the `action` handler (variant-resolution
revision): validation, authentication, variant-to-product resolution,
batched `metafieldsSet` mutation, Prisma upsert, success response.  Any
awaited step that throws lands in the `catch` block, which returns the
generic 500 response carrying the error message.  The result is the
response, the final database state, and the trace of issued calls. -/
def action (req : ReservationRequest) (env : Env) (db : Db) (now : Nat) :
    ActionResult × Db × List Event :=
  if !(req.productId.truthy && req.cartId.truthy && req.shop.truthy) then
    (.failure 400 "Missing required fields: productId, cartId, or shop" none,
     db, [])
  else
    match env.authThrows with
    | some msg => (internalError msg, db, [.authenticate])
    | none =>
      let gid := variantGid req
      match env.variantQueryThrows with
      | some msg => (internalError msg, db, [.authenticate, .variantQuery gid])
      | none =>
        match env.variantProductId gid with
        | none =>
            (internalError "Could not resolve product ID from variant ID",
             db, [.authenticate, .variantQuery gid])
        | some pid =>
          if pid = "" then
            (internalError "Could not resolve product ID from variant ID",
             db, [.authenticate, .variantQuery gid])
          else
            let fs := metafields pid req.cartId.jsToString
            match env.mutationThrows with
            | some msg =>
                (internalError msg, db,
                 [.authenticate, .variantQuery gid, .metafieldsSet fs])
            | none =>
              let errs := getUserErrors env.mutationResponse
              if 0 < errs.length then
                (.failure 500 "Failed to update metafields"
                   (some (.fieldErrors errs)), db,
                 [.authenticate, .variantQuery gid, .metafieldsSet fs])
              else
                match env.upsertThrows with
                | some msg =>
                    (internalError msg, db,
                     [.authenticate, .variantQuery gid, .metafieldsSet fs,
                      .dbUpsert pid req.cartId.jsToString])
                | none =>
                  let ur := prismaUpsert db pid req.cartId.jsToString
                      (normalizeCustomerId req.customerId) now
                  (.success 200 (toView ur.1), ur.2,
                   [.authenticate, .variantQuery gid, .metafieldsSet fs,
                    .dbUpsert pid req.cartId.jsToString])

/-- Concrete request taken from the spec's end-to-end example. -/
def reqOk : ReservationRequest :=
  { productId := .vStr "999", cartId := .vStr "cart-1",
    customerId := .vStr "cust-7", shop := .vStr "demo.myshopify.com" }

/-- Concrete environment in which every step succeeds and the variant
resolves to the catalog identity of the spec's end-to-end example. -/
def envOk : Env :=
  { authThrows := none, variantQueryThrows := none,
    variantProductId := fun _ => some "prod-abc",
    mutationThrows := none,
    mutationResponse :=
      some { data := some { metafieldsSet := some { userErrors := some [] } } },
    upsertThrows := none }

/-- Empty database. -/
def db0 : Db := { records := [], nextId := 0 }

/-- Record persisted by a first successful run of the end-to-end example
against the empty database at time 5. -/
def recOk : DbRecord :=
  { id := 0, productId := "prod-abc", cartId := "cart-1",
    customerId := some "cust-7", isReserved := true, createdAt := 5,
    updatedAt := 5 }

/-- Trace of the fully successful run of the end-to-end example. -/
def traceOk : List Event :=
  [.authenticate, .variantQuery "gid://shopify/ProductVariant/999",
   .metafieldsSet (metafields "prod-abc" "cart-1"),
   .dbUpsert "prod-abc" "cart-1"]

example :
    action reqOk envOk db0 5 =
      (.success 200 (toView recOk),
       { records := [recOk], nextId := 1 }, traceOk) := by decide

/-- Environment in which the variant query resolves no owning product
(the optional chain down to `product.id` misses). -/
def envNoResolve : Env := { envOk with variantProductId := fun _ => none }

/-- Environment in which `authenticate.public.appProxy` throws, with the
same message a failed resolution produces. -/
def envAuthFail : Env :=
  { envOk with
    authThrows := some "Could not resolve product ID from variant ID" }

/-- Request from the end-to-end example with an empty `shop` field. -/
def reqMissingShop : ReservationRequest :=
  { reqOk with shop := .vStr "" }

/-- Characterization of the whole success path: when validation passes,
no awaited call throws, the variant resolves to a non-empty product id
and the mutation reports no user errors, the handler returns the view of
the upserted record, the upserted database, and the full four-event
trace. -/
theorem action_success_eq (req : ReservationRequest) (env : Env) (db : Db)
    (now : Nat) (pid : String)
    (hp : req.productId.truthy = true) (hc : req.cartId.truthy = true)
    (hs : req.shop.truthy = true)
    (ha : env.authThrows = none) (hv : env.variantQueryThrows = none)
    (hr : env.variantProductId (variantGid req) = some pid) (hpid : pid ≠ "")
    (hm : env.mutationThrows = none)
    (he : getUserErrors env.mutationResponse = [])
    (hu : env.upsertThrows = none) :
    action req env db now =
      (.success 200 (toView (prismaUpsert db pid req.cartId.jsToString
          (normalizeCustomerId req.customerId) now).1),
       (prismaUpsert db pid req.cartId.jsToString
          (normalizeCustomerId req.customerId) now).2,
       [.authenticate, .variantQuery (variantGid req),
        .metafieldsSet (metafields pid req.cartId.jsToString),
        .dbUpsert pid req.cartId.jsToString]) := by
  simp [action, hp, hc, hs, ha, hv, hr, hpid, hm, he, hu]

/-- C1: a request whose `productId`, `cartId` or `shop` is missing or
empty (falsy) yields the 400 validation failure, leaves the database
unchanged, issues no external call at all, and the outcome is the same
for every `customerId` (which is never validated). -/
theorem validation_rejects_missing_fields (req : ReservationRequest)
    (env : Env) (db : Db) (now : Nat)
    (h : req.productId.truthy = false ∨ req.cartId.truthy = false ∨
      req.shop.truthy = false) :
    action req env db now =
      (.failure 400 "Missing required fields: productId, cartId, or shop" none,
       db, []) ∧
    ∀ c, action { req with customerId := c } env db now =
      action req env db now := by
  have hguard :
      (req.productId.truthy && req.cartId.truthy && req.shop.truthy) = false := by
    rcases h with h | h | h <;> simp [h]
  refine ⟨?_, ?_⟩
  · unfold action
    rw [hguard]
    rfl
  · intro c
    have e1 : ({ req with customerId := c } : ReservationRequest).productId
        = req.productId := rfl
    have e2 : ({ req with customerId := c } : ReservationRequest).cartId
        = req.cartId := rfl
    have e3 : ({ req with customerId := c } : ReservationRequest).shop
        = req.shop := rfl
    unfold action
    rw [e1, e2, e3, hguard]
    rfl

/-- C1 witness: the end-to-end request with an empty shop is rejected with
the 400 response, no database change and an empty call trace. -/
theorem validation_rejects_missing_fields_witness :
    reqMissingShop.shop.truthy = false ∧
    action reqMissingShop envOk db0 0 =
      (.failure 400 "Missing required fields: productId, cartId, or shop" none,
       db0, []) :=
  ⟨rfl,
   (validation_rejects_missing_fields reqMissingShop envOk db0 0
      (Or.inr (Or.inr rfl))).1⟩

/-- C2 counterexample: the claim asserts the resolution failure is a
classification distinct from the unexpected-failure classification, but a
run whose variant does not resolve and a run whose authentication call
throws (an unexpected failure) produce literally the same response:
status 500, error "Internal server error", details the message string. -/
theorem resolution_failure_not_distinct :
    (action reqOk envNoResolve db0 0).1 =
      internalError "Could not resolve product ID from variant ID" ∧
    (action reqOk envAuthFail db0 0).1 =
      internalError "Could not resolve product ID from variant ID" ∧
    (action reqOk envNoResolve db0 0).1 = (action reqOk envAuthFail db0 0).1 := by
  decide

/-- C2 amended: on a valid request whose variant id resolves to no owning
product (or to an empty id), the handler throws and the generic catch
returns the unexpected-failure response (500, "Internal server error")
with details "Could not resolve product ID from variant ID"; the database
is unchanged and the trace shows no metafield write and no upsert. -/
theorem resolution_failure_behavior (req : ReservationRequest) (env : Env)
    (db : Db) (now : Nat)
    (hp : req.productId.truthy = true) (hc : req.cartId.truthy = true)
    (hs : req.shop.truthy = true)
    (ha : env.authThrows = none) (hv : env.variantQueryThrows = none)
    (hr : env.variantProductId (variantGid req) = none ∨
      env.variantProductId (variantGid req) = some "") :
    action req env db now =
      (internalError "Could not resolve product ID from variant ID", db,
       [.authenticate, .variantQuery (variantGid req)]) := by
  rcases hr with hr | hr <;> simp [action, hp, hc, hs, ha, hv, hr]

/-- C2 amended, witness: concrete non-resolving run. -/
theorem resolution_failure_behavior_witness :
    envNoResolve.variantProductId (variantGid reqOk) = none ∧
    action reqOk envNoResolve db0 3 =
      (internalError "Could not resolve product ID from variant ID", db0,
       [.authenticate, .variantQuery (variantGid reqOk)]) :=
  ⟨rfl,
   resolution_failure_behavior reqOk envNoResolve db0 3 rfl rfl rfl rfl rfl
     (Or.inl rfl)⟩

/-- Canonical identity the handler resolves for a request: the product id
returned by the variant query, accepted only when it is truthy (the
handler throws on `undefined` and on the empty string alike). -/
def resolvedId (req : ReservationRequest) (env : Env) : Option String :=
  match env.variantProductId (variantGid req) with
  | none => none
  | some s => if s = "" then none else some s

/-- C3: whenever the trace contains the remote metafield write, every
metafield's `ownerId` is the resolved product identity, and whenever it
contains the local upsert, the upsert key is that same resolved identity
together with the request's cart id — never the raw client-supplied id
unless it coincides with the resolved one. -/
theorem writes_use_resolved_identity (req : ReservationRequest) (env : Env)
    (db : Db) (now : Nat) :
    (∀ fs, Event.metafieldsSet fs ∈ (action req env db now).2.2 →
      ∃ pid, resolvedId req env = some pid ∧
        fs = metafields pid req.cartId.jsToString ∧
        ∀ f ∈ fs, f.ownerId = pid) ∧
    (∀ p c, Event.dbUpsert p c ∈ (action req env db now).2.2 →
      resolvedId req env = some p ∧ c = req.cartId.jsToString) := by
  cases hg : (req.productId.truthy && req.cartId.truthy && req.shop.truthy) with
  | false => simp [action, hg]
  | true =>
    cases hauth : env.authThrows with
    | some msg => simp [action, hg, hauth]
    | none =>
      cases hvq : env.variantQueryThrows with
      | some msg => simp [action, hg, hauth, hvq]
      | none =>
        cases hres : env.variantProductId (variantGid req) with
        | none => simp [action, hg, hauth, hvq, hres]
        | some pid =>
          by_cases hpid : pid = ""
          · simp [action, hg, hauth, hvq, hres, hpid]
          · have hrid : resolvedId req env = some pid := by
              simp [resolvedId, hres, hpid]
            have howner : ∀ f ∈ metafields pid req.cartId.jsToString,
                f.ownerId = pid := by
              simp [metafields]
            cases hmut : env.mutationThrows with
            | some msg =>
              refine ⟨?_, ?_⟩
              · intro fs hfs
                simp [action, hg, hauth, hvq, hres, hpid, hmut] at hfs
                exact ⟨pid, hrid, hfs, hfs ▸ howner⟩
              · intro p c hpc
                simp [action, hg, hauth, hvq, hres, hpid, hmut] at hpc
            | none =>
              by_cases herr : 0 < (getUserErrors env.mutationResponse).length
              · refine ⟨?_, ?_⟩
                · intro fs hfs
                  simp [action, hg, hauth, hvq, hres, hpid, hmut, herr] at hfs
                  exact ⟨pid, hrid, hfs, hfs ▸ howner⟩
                · intro p c hpc
                  simp [action, hg, hauth, hvq, hres, hpid, hmut, herr] at hpc
              · cases hup : env.upsertThrows with
                | some msg =>
                  refine ⟨?_, ?_⟩
                  · intro fs hfs
                    simp [action, hg, hauth, hvq, hres, hpid, hmut, herr, hup]
                      at hfs
                    exact ⟨pid, hrid, hfs, hfs ▸ howner⟩
                  · intro p c hpc
                    simp [action, hg, hauth, hvq, hres, hpid, hmut, herr, hup]
                      at hpc
                    exact ⟨hpc.1 ▸ hrid, hpc.2⟩
                | none =>
                  refine ⟨?_, ?_⟩
                  · intro fs hfs
                    simp [action, hg, hauth, hvq, hres, hpid, hmut, herr, hup]
                      at hfs
                    exact ⟨pid, hrid, hfs, hfs ▸ howner⟩
                  · intro p c hpc
                    simp [action, hg, hauth, hvq, hres, hpid, hmut, herr, hup]
                      at hpc
                    exact ⟨hpc.1 ▸ hrid, hpc.2⟩

/-- C3 witness: in the fully successful concrete run, the upsert key is
exactly the resolved identity and the example's cart id. -/
theorem writes_use_resolved_identity_witness :
    resolvedId reqOk envOk = some "prod-abc" ∧
    "cart-1" = reqOk.cartId.jsToString :=
  (writes_use_resolved_identity reqOk envOk db0 5).2 "prod-abc" "cart-1"
    (by decide)

/-- Field error reported by the platform in the C4 scenario. -/
def errBoolean : UserError :=
  { field := "value", message := "Invalid boolean value" }

/-- Environment in which the metafield mutation reports one field error. -/
def envFieldErr : Env :=
  { envOk with
    mutationResponse :=
      some { data := some { metafieldsSet := some { userErrors := some [errBoolean] } } } }

/-- C4: on a valid request where the platform reports user errors on the
`metafieldsSet` mutation, the handler returns the 500 metafield-write
failure whose details are exactly the reported field/message pairs, the
database is unchanged, and the trace contains no upsert call. -/
theorem metafield_errors_block_persistence (req : ReservationRequest)
    (env : Env) (db : Db) (now : Nat) (pid : String)
    (hp : req.productId.truthy = true) (hc : req.cartId.truthy = true)
    (hs : req.shop.truthy = true)
    (ha : env.authThrows = none) (hv : env.variantQueryThrows = none)
    (hr : env.variantProductId (variantGid req) = some pid) (hpid : pid ≠ "")
    (hm : env.mutationThrows = none)
    (herr : getUserErrors env.mutationResponse ≠ []) :
    action req env db now =
      (.failure 500 "Failed to update metafields"
         (some (.fieldErrors (getUserErrors env.mutationResponse))), db,
       [.authenticate, .variantQuery (variantGid req),
        .metafieldsSet (metafields pid req.cartId.jsToString)]) := by
  have hlen : 0 < (getUserErrors env.mutationResponse).length :=
    List.length_pos.mpr herr
  simp [action, hp, hc, hs, ha, hv, hr, hpid, hm, hlen]

/-- C4 witness: concrete run in which the platform reports one field
error; the response carries it and the database stays empty. -/
theorem metafield_errors_block_persistence_witness :
    getUserErrors envFieldErr.mutationResponse ≠ [] ∧
    action reqOk envFieldErr db0 2 =
      (.failure 500 "Failed to update metafields"
         (some (.fieldErrors (getUserErrors envFieldErr.mutationResponse))),
       db0,
       [.authenticate, .variantQuery (variantGid reqOk),
        .metafieldsSet (metafields "prod-abc" reqOk.cartId.jsToString)]) :=
  ⟨by decide,
   metafield_errors_block_persistence reqOk envFieldErr db0 2 "prod-abc"
     rfl rfl rfl rfl rfl rfl (by decide) rfl (by decide)⟩

/-- Number of table rows for a given (productId, cartId) key. -/
def countKey (db : Db) (pid cid : String) : Nat :=
  (db.records.filter (keyMatches pid cid)).length

lemma keyMatches_upsertMap (pid cid : String) (cust : Option String)
    (now : Nat) (p c : String) (x : DbRecord) :
    keyMatches p c (upsertMap pid cid cust now x) = keyMatches p c x := by
  cases h : keyMatches pid cid x
  · simp [upsertMap, h]
  · simp [upsertMap, h]
    rfl

lemma keyMatches_createRec (pid cid : String) (cust : Option String)
    (now : Nat) (id : Nat) :
    keyMatches pid cid (createRec id pid cid cust now) = true := by
  simp [keyMatches, createRec]

lemma keyMatches_comp_upsertMap (pid cid : String) (cust : Option String)
    (now : Nat) :
    keyMatches pid cid ∘ upsertMap pid cid cust now = keyMatches pid cid :=
  funext fun x => keyMatches_upsertMap pid cid cust now pid cid x

lemma matching_mem_eq {l : List DbRecord} {p : DbRecord → Bool}
    (h : (l.filter p).length ≤ 1) {a b : DbRecord}
    (ha : a ∈ l) (hpa : p a = true) (hb : b ∈ l) (hpb : p b = true) :
    a = b := by
  have ha' : a ∈ l.filter p := List.mem_filter.mpr ⟨ha, hpa⟩
  have hb' : b ∈ l.filter p := List.mem_filter.mpr ⟨hb, hpb⟩
  rcases hl : l.filter p with _ | ⟨x, _ | ⟨y, t⟩⟩
  · rw [hl] at ha'
    simp at ha'
  · rw [hl] at ha' hb'
    simp at ha' hb'
    rw [ha', hb']
  · rw [hl] at h
    simp at h

/-- Request from the end-to-end example whose supplied `customerId` is the
empty string. -/
def reqEmptyCust : ReservationRequest := { reqOk with customerId := .vStr "" }

/-- Reservation view produced for `reqEmptyCust` at time 7: the stored
`customerId` is `null`, not the supplied empty string. -/
def viewEmptyCust : ReservationView :=
  { id := 0, productId := "prod-abc", cartId := "cart-1",
    customerId := none, isReserved := true, createdAt := 7 }

/-- C5 counterexample: the claim says the created record carries the
supplied `customerId`, but for the supplied empty string the handler
persists `null` (the `|| null` fallback fires after `toString`), so no
record ever holds the supplied value. -/
theorem create_nulls_empty_customer :
    reqEmptyCust.customerId = .vStr "" ∧
    (action reqEmptyCust envOk db0 7).1 = .success 200 viewEmptyCust ∧
    ∀ r ∈ (action reqEmptyCust envOk db0 7).2.1.records,
      r.customerId ≠ some "" := by decide

/-- C5 amended: on a successful execution the upsert keyed by the
resolved identity and cart id updates a key-matching record in place —
rewriting only `isReserved` (to true), `customerId` (to the normalized
supplied value) and `updatedAt`, preserving `id`, `createdAt`,
`productId` and `cartId` — and in the absence of a key-matching record
appends a fresh record with a generated id, `isReserved = true` and the
normalized supplied `customerId`. -/
theorem upsert_update_or_create (req : ReservationRequest) (env : Env)
    (db : Db) (now : Nat) (pid : String)
    (hp : req.productId.truthy = true) (hc : req.cartId.truthy = true)
    (hs : req.shop.truthy = true)
    (ha : env.authThrows = none) (hv : env.variantQueryThrows = none)
    (hr : env.variantProductId (variantGid req) = some pid) (hpid : pid ≠ "")
    (hm : env.mutationThrows = none)
    (he : getUserErrors env.mutationResponse = [])
    (hu : env.upsertThrows = none)
    (huniq : countKey db pid req.cartId.jsToString ≤ 1) :
    ∃ v db1,
      action req env db now =
        (.success 200 v, db1,
         [.authenticate, .variantQuery (variantGid req),
          .metafieldsSet (metafields pid req.cartId.jsToString),
          .dbUpsert pid req.cartId.jsToString]) ∧
      (∀ r ∈ db.records, keyMatches pid req.cartId.jsToString r = true →
        ∃ r1 ∈ db1.records,
          r1.id = r.id ∧ r1.createdAt = r.createdAt ∧
          r1.productId = r.productId ∧ r1.cartId = r.cartId ∧
          r1.isReserved = true ∧
          r1.customerId = normalizeCustomerId req.customerId ∧
          r1.updatedAt = now ∧ v = toView r1) ∧
      ((∀ r ∈ db.records, keyMatches pid req.cartId.jsToString r = false) →
        db1.records = db.records ++
          [createRec db.nextId pid req.cartId.jsToString
            (normalizeCustomerId req.customerId) now] ∧
        v = toView (createRec db.nextId pid req.cartId.jsToString
          (normalizeCustomerId req.customerId) now)) := by
  have hact := action_success_eq req env db now pid hp hc hs ha hv hr hpid hm he hu
  cases hfind : db.records.find? (keyMatches pid req.cartId.jsToString) with
  | some r0 =>
    have hups : prismaUpsert db pid req.cartId.jsToString
        (normalizeCustomerId req.customerId) now =
        (updateRec (normalizeCustomerId req.customerId) now r0,
         { db with records := db.records.map (upsertMap pid
            req.cartId.jsToString (normalizeCustomerId req.customerId) now) }) := by
      simp [prismaUpsert, hfind]
    have hr0mem : r0 ∈ db.records := List.mem_of_find?_eq_some hfind
    have hr0key : keyMatches pid req.cartId.jsToString r0 = true :=
      List.find?_some hfind
    refine ⟨toView (updateRec (normalizeCustomerId req.customerId) now r0),
      { db with records := db.records.map (upsertMap pid
         req.cartId.jsToString (normalizeCustomerId req.customerId) now) },
      ?_, ?_, ?_⟩
    · rw [hact, hups]
    · intro r hrmem hrkey
      have hreq : r = r0 := matching_mem_eq huniq hrmem hrkey hr0mem hr0key
      subst hreq
      refine ⟨updateRec (normalizeCustomerId req.customerId) now r, ?_,
        rfl, rfl, rfl, rfl, rfl, rfl, rfl, rfl⟩
      have hmap : upsertMap pid req.cartId.jsToString
          (normalizeCustomerId req.customerId) now r =
          updateRec (normalizeCustomerId req.customerId) now r := by
        simp [upsertMap, hrkey]
      exact hmap ▸ List.mem_map_of_mem _ hrmem
    · intro hnone
      have := hnone r0 hr0mem
      rw [this] at hr0key
      cases hr0key
  | none =>
    have hups : prismaUpsert db pid req.cartId.jsToString
        (normalizeCustomerId req.customerId) now =
        (createRec db.nextId pid req.cartId.jsToString
           (normalizeCustomerId req.customerId) now,
         { records := db.records ++
             [createRec db.nextId pid req.cartId.jsToString
               (normalizeCustomerId req.customerId) now],
           nextId := db.nextId + 1 }) := by
      simp [prismaUpsert, hfind]
    refine ⟨toView (createRec db.nextId pid req.cartId.jsToString
        (normalizeCustomerId req.customerId) now),
      { records := db.records ++
          [createRec db.nextId pid req.cartId.jsToString
            (normalizeCustomerId req.customerId) now],
        nextId := db.nextId + 1 }, ?_, ?_, ?_⟩
    · rw [hact, hups]
    · intro r hrmem hrkey
      have := List.find?_eq_none.mp hfind r hrmem
      rw [hrkey] at this
      cases this rfl
    · intro _
      exact ⟨rfl, rfl⟩

/-- C5 amended, witness: first reservation of the end-to-end example on
the empty database takes the create branch. -/
theorem upsert_update_or_create_witness :
    countKey db0 "prod-abc" reqOk.cartId.jsToString ≤ 1 ∧
    ∃ v db1,
      action reqOk envOk db0 5 =
        (.success 200 v, db1,
         [.authenticate, .variantQuery (variantGid reqOk),
          .metafieldsSet (metafields "prod-abc" reqOk.cartId.jsToString),
          .dbUpsert "prod-abc" reqOk.cartId.jsToString]) ∧
      (∀ r ∈ db0.records, keyMatches "prod-abc" reqOk.cartId.jsToString r = true →
        ∃ r1 ∈ db1.records,
          r1.id = r.id ∧ r1.createdAt = r.createdAt ∧
          r1.productId = r.productId ∧ r1.cartId = r.cartId ∧
          r1.isReserved = true ∧
          r1.customerId = normalizeCustomerId reqOk.customerId ∧
          r1.updatedAt = 5 ∧ v = toView r1) ∧
      ((∀ r ∈ db0.records, keyMatches "prod-abc" reqOk.cartId.jsToString r = false) →
        db1.records = db0.records ++
          [createRec db0.nextId "prod-abc" reqOk.cartId.jsToString
            (normalizeCustomerId reqOk.customerId) 5] ∧
        v = toView (createRec db0.nextId "prod-abc" reqOk.cartId.jsToString
          (normalizeCustomerId reqOk.customerId) 5)) :=
  ⟨by decide,
   upsert_update_or_create reqOk envOk db0 5 "prod-abc" rfl rfl rfl rfl rfl rfl
     (by decide) rfl (by decide) rfl (by decide)⟩

lemma upsert_fst_key (db : Db) (pid cid : String) (cust : Option String)
    (now : Nat) :
    (prismaUpsert db pid cid cust now).1.productId = pid ∧
    (prismaUpsert db pid cid cust now).1.cartId = cid := by
  cases hfind : db.records.find? (keyMatches pid cid) with
  | none => simp [prismaUpsert, hfind, createRec]
  | some r =>
    have hk := List.find?_some hfind
    simp [keyMatches] at hk
    simp [prismaUpsert, hfind, updateRec, hk.1, hk.2]

lemma countKey_upsert (db : Db) (pid cid : String) (cust : Option String)
    (now : Nat) (h : countKey db pid cid ≤ 1) :
    countKey (prismaUpsert db pid cid cust now).2 pid cid = 1 := by
  cases hfind : db.records.find? (keyMatches pid cid) with
  | none =>
    have hnil : db.records.filter (keyMatches pid cid) = [] := by
      rw [List.filter_eq_nil_iff]
      intro a ha
      simpa using List.find?_eq_none.mp hfind a ha
    simp [prismaUpsert, hfind, countKey, List.filter_append, hnil,
      keyMatches_createRec]
  | some r =>
    have hmem : r ∈ db.records.filter (keyMatches pid cid) :=
      List.mem_filter.mpr ⟨List.mem_of_find?_eq_some hfind,
        List.find?_some hfind⟩
    have heq1 : (db.records.filter (keyMatches pid cid)).length = 1 :=
      le_antisymm h (List.length_pos.mpr (List.ne_nil_of_mem hmem))
    simp [prismaUpsert, hfind, countKey, List.filter_map,
      keyMatches_comp_upsertMap, heq1]

lemma upsert_of_find_some {db : Db} {pid cid : String} {cust : Option String}
    {now : Nat} {r : DbRecord}
    (h : db.records.find? (keyMatches pid cid) = some r) :
    prismaUpsert db pid cid cust now =
      (updateRec cust now r,
       { db with records := db.records.map (upsertMap pid cid cust now) }) := by
  simp [prismaUpsert, h]

lemma find?_upsert (db : Db) (pid cid : String) (cust : Option String)
    (now : Nat) :
    (prismaUpsert db pid cid cust now).2.records.find? (keyMatches pid cid) =
      some (prismaUpsert db pid cid cust now).1 := by
  cases hfind : db.records.find? (keyMatches pid cid) with
  | none =>
    simp [prismaUpsert, hfind, List.find?_append, keyMatches_createRec]
  | some r =>
    have hk := List.find?_some hfind
    simp [prismaUpsert, hfind, List.find?_map, keyMatches_comp_upsertMap,
      upsertMap, hk]

/-- Inversion of the success case: a run that returns a success response
must have resolved a non-empty product id, returned status 200 and the
view of the upserted record, and left the database in the upserted
state. -/
lemma action_success_inv (req : ReservationRequest) (env : Env) (db : Db)
    (now : Nat) (s : Nat) (v : ReservationView) (db1 : Db) (tr : List Event)
    (h : action req env db now = (.success s v, db1, tr)) :
    ∃ pid, env.variantProductId (variantGid req) = some pid ∧ pid ≠ "" ∧
      s = 200 ∧
      v = toView (prismaUpsert db pid req.cartId.jsToString
        (normalizeCustomerId req.customerId) now).1 ∧
      db1 = (prismaUpsert db pid req.cartId.jsToString
        (normalizeCustomerId req.customerId) now).2 := by
  simp only [action] at h
  split at h
  · simp at h
  · split at h
    · simp [internalError] at h
    · split at h
      · simp [internalError] at h
      · split at h
        · simp [internalError] at h
        · rename_i pid heq
          split at h
          · simp [internalError] at h
          · rename_i hpid
            split at h
            · simp [internalError] at h
            · split at h
              · simp at h
              · split at h
                · simp [internalError] at h
                · simp only [Prod.mk.injEq, ActionResult.success.injEq] at h
                  exact ⟨pid, heq, hpid, h.1.1.symm, h.1.2.symm, h.2.1.symm⟩

/-- C6: two successive successful invocations against the same platform
state, sharing the raw product/variant id and cart id but possibly
differing in `customerId`, leave exactly one record for the resolved key,
and the second response's record keeps the first one's `id` and
`createdAt` (the second call updates instead of duplicating). -/
theorem local_record_idempotence (req1 req2 : ReservationRequest) (env : Env)
    (db db1 db2 : Db) (now1 now2 s1 s2 : Nat) (v1 v2 : ReservationView)
    (tr1 tr2 : List Event)
    (hpid : req2.productId = req1.productId) (hcid : req2.cartId = req1.cartId)
    (huniq : ∀ p c, countKey db p c ≤ 1)
    (h1 : action req1 env db now1 = (.success s1 v1, db1, tr1))
    (h2 : action req2 env db1 now2 = (.success s2 v2, db2, tr2)) :
    v2.id = v1.id ∧ v2.createdAt = v1.createdAt ∧
    countKey db2 v1.productId v1.cartId = 1 := by
  obtain ⟨p1, hres1, hp1, -, hv1, hdb1⟩ := action_success_inv _ _ _ _ _ _ _ _ h1
  obtain ⟨p2, hres2, hp2, -, hv2, hdb2⟩ := action_success_inv _ _ _ _ _ _ _ _ h2
  have hgid : variantGid req2 = variantGid req1 := by
    simp [variantGid, hpid]
  rw [hgid, hres1] at hres2
  have hpp : p2 = p1 := (Option.some.inj hres2).symm
  subst hpp
  have hcart : req2.cartId.jsToString = req1.cartId.jsToString := by rw [hcid]
  rw [hcart, hdb1] at hv2 hdb2
  have hfind1 : (prismaUpsert db p2 req1.cartId.jsToString
      (normalizeCustomerId req1.customerId) now1).2.records.find?
        (keyMatches p2 req1.cartId.jsToString) =
      some (prismaUpsert db p2 req1.cartId.jsToString
        (normalizeCustomerId req1.customerId) now1).1 :=
    find?_upsert db p2 req1.cartId.jsToString
      (normalizeCustomerId req1.customerId) now1
  have hu2fst : (prismaUpsert (prismaUpsert db p2 req1.cartId.jsToString
      (normalizeCustomerId req1.customerId) now1).2 p2 req1.cartId.jsToString
      (normalizeCustomerId req2.customerId) now2).1 =
      updateRec (normalizeCustomerId req2.customerId) now2
        (prismaUpsert db p2 req1.cartId.jsToString
          (normalizeCustomerId req1.customerId) now1).1 := by
    rw [upsert_of_find_some hfind1]
  have hvp : v1.productId = p2 := by
    rw [hv1]
    exact (upsert_fst_key db p2 req1.cartId.jsToString
      (normalizeCustomerId req1.customerId) now1).1
  have hvc : v1.cartId = req1.cartId.jsToString := by
    rw [hv1]
    exact (upsert_fst_key db p2 req1.cartId.jsToString
      (normalizeCustomerId req1.customerId) now1).2
  have hcount1 : countKey (prismaUpsert db p2 req1.cartId.jsToString
      (normalizeCustomerId req1.customerId) now1).2 p2
        req1.cartId.jsToString = 1 :=
    countKey_upsert db p2 req1.cartId.jsToString
      (normalizeCustomerId req1.customerId) now1
      (huniq p2 req1.cartId.jsToString)
  refine ⟨?_, ?_, ?_⟩
  · rw [hv1, hv2, hu2fst]
    rfl
  · rw [hv1, hv2, hu2fst]
    rfl
  · rw [hvp, hvc, hdb2]
    exact countKey_upsert _ p2 req1.cartId.jsToString
      (normalizeCustomerId req2.customerId) now2 (le_of_eq hcount1)

/-- Second request of the idempotence scenario: same product and cart,
different customer. -/
def reqOk2 : ReservationRequest := { reqOk with customerId := .vStr "cust-9" }

/-- Database state after the first successful run of the example. -/
def dbAfterFirst : Db := { records := [recOk], nextId := 1 }

/-- Record after the second run updated the first one in place. -/
def recSecond : DbRecord :=
  { recOk with customerId := some "cust-9", updatedAt := 9 }

/-- Database state after the second successful run. -/
def dbAfterSecond : Db := { records := [recSecond], nextId := 1 }

/-- C6 witness: concrete pair of runs — same product and cart, different
customer — where the second run preserves `id` and `createdAt` and the
table holds exactly one record for the key. -/
theorem local_record_idempotence_witness :
    (toView recSecond).id = (toView recOk).id ∧
    (toView recSecond).createdAt = (toView recOk).createdAt ∧
    countKey dbAfterSecond (toView recOk).productId (toView recOk).cartId = 1 :=
  local_record_idempotence reqOk reqOk2 envOk db0 dbAfterFirst dbAfterSecond
    5 9 200 200 (toView recOk) (toView recSecond) traceOk traceOk
    rfl rfl (fun p c => by simp [countKey, db0]) (by decide) (by decide)

/-- C7: in every execution the trace of issued calls is a truncation of
the canonical order authenticate, variant resolution, remote metafield
write, local upsert (conjunct one: a failing step issues no later call
and nothing else — in particular no compensating rollback call — is ever
issued); the upsert is only issued after the metafield mutation returned
without throwing and with no user errors (conjunct two); the metafield
write is only issued after resolution produced a non-empty product id
(conjunct three); and any failure outcome leaves the local database
untouched (conjunct four). -/
theorem step_ordering (req : ReservationRequest) (env : Env) (db : Db)
    (now : Nat) :
    ((action req env db now).2.2 = [] ∨
     (action req env db now).2.2 = [Event.authenticate] ∨
     (action req env db now).2.2 =
       [Event.authenticate, Event.variantQuery (variantGid req)] ∨
     (∃ fs, (action req env db now).2.2 =
       [Event.authenticate, Event.variantQuery (variantGid req),
        Event.metafieldsSet fs]) ∨
     (∃ fs p c, (action req env db now).2.2 =
       [Event.authenticate, Event.variantQuery (variantGid req),
        Event.metafieldsSet fs, Event.dbUpsert p c])) ∧
    (∀ p c, Event.dbUpsert p c ∈ (action req env db now).2.2 →
      env.mutationThrows = none ∧
      getUserErrors env.mutationResponse = [] ∧
      ∃ fs, Event.metafieldsSet fs ∈ (action req env db now).2.2) ∧
    (∀ fs, Event.metafieldsSet fs ∈ (action req env db now).2.2 →
      ∃ pid, env.variantProductId (variantGid req) = some pid ∧ pid ≠ "") ∧
    (∀ s e d, (action req env db now).1 = ActionResult.failure s e d →
      (action req env db now).2.1 = db) := by
  cases hg : (req.productId.truthy && req.cartId.truthy && req.shop.truthy) with
  | false => simp [action, hg]
  | true =>
    cases hauth : env.authThrows with
    | some msg => simp [action, hg, hauth]
    | none =>
      cases hvq : env.variantQueryThrows with
      | some msg => simp [action, hg, hauth, hvq]
      | none =>
        cases hres : env.variantProductId (variantGid req) with
        | none => simp [action, hg, hauth, hvq, hres]
        | some pid =>
          by_cases hpid : pid = ""
          · simp [action, hg, hauth, hvq, hres, hpid]
          · cases hmut : env.mutationThrows with
            | some msg =>
              refine ⟨?_, ?_, ?_, ?_⟩
              · simp [action, hg, hauth, hvq, hres, hpid, hmut]
              · intro p c hpc
                simp [action, hg, hauth, hvq, hres, hpid, hmut] at hpc
              · intro fs _
                exact ⟨pid, rfl, hpid⟩
              · intro s e d _
                simp [action, hg, hauth, hvq, hres, hpid, hmut]
            | none =>
              by_cases herr : 0 < (getUserErrors env.mutationResponse).length
              · refine ⟨?_, ?_, ?_, ?_⟩
                · simp [action, hg, hauth, hvq, hres, hpid, hmut, herr]
                · intro p c hpc
                  simp [action, hg, hauth, hvq, hres, hpid, hmut, herr] at hpc
                · intro fs _
                  exact ⟨pid, rfl, hpid⟩
                · intro s e d _
                  simp [action, hg, hauth, hvq, hres, hpid, hmut, herr]
              · have herr0 : getUserErrors env.mutationResponse = [] :=
                  List.length_eq_zero.mp (Nat.le_zero.mp (Nat.not_lt.mp herr))
                cases hup : env.upsertThrows with
                | some msg =>
                  refine ⟨?_, ?_, ?_, ?_⟩
                  · simp [action, hg, hauth, hvq, hres, hpid, hmut, herr0, hup]
                  · intro p c _
                    refine ⟨rfl, herr0, metafields pid req.cartId.jsToString, ?_⟩
                    simp [action, hg, hauth, hvq, hres, hpid, hmut, herr0, hup]
                  · intro fs _
                    exact ⟨pid, rfl, hpid⟩
                  · intro s e d _
                    simp [action, hg, hauth, hvq, hres, hpid, hmut, herr0, hup]
                | none =>
                  refine ⟨?_, ?_, ?_, ?_⟩
                  · simp [action, hg, hauth, hvq, hres, hpid, hmut, herr0, hup]
                  · intro p c _
                    refine ⟨rfl, herr0, metafields pid req.cartId.jsToString, ?_⟩
                    simp [action, hg, hauth, hvq, hres, hpid, hmut, herr0, hup]
                  · intro fs _
                    exact ⟨pid, rfl, hpid⟩
                  · intro s e d hcon
                    simp [action, hg, hauth, hvq, hres, hpid, hmut, herr0, hup]
                      at hcon

/-- C7 witness: in the concrete field-error run the database is left
untouched (applying the failure conjunct of the ordering theorem). -/
theorem step_ordering_witness :
    (action reqOk envFieldErr db0 2).2.1 = db0 :=
  (step_ordering reqOk envFieldErr db0 2).2.2.2 500 "Failed to update metafields"
    (some (.fieldErrors [errBoolean])) (by decide)

lemma toDigitsCore_length_le (b : Nat) :
    ∀ (fuel n : Nat) (ds : List Char),
      ds.length ≤ (Nat.toDigitsCore b fuel n ds).length
  | 0, _, _ => le_refl _
  | fuel + 1, n, ds => by
    simp only [Nat.toDigitsCore]
    by_cases h : n / b = 0
    · rw [if_pos h]
      exact Nat.le_succ _
    · rw [if_neg h]
      exact le_trans (Nat.le_succ _)
        (toDigitsCore_length_le b fuel (n / b) (Nat.digitChar (n % b) :: ds))

lemma toDigits_ne_nil (b n : Nat) : Nat.toDigits b n ≠ [] := by
  simp only [Nat.toDigits, Nat.toDigitsCore]
  by_cases h : n / b = 0
  · rw [if_pos h]
    simp
  · rw [if_neg h]
    intro hh
    have hle := toDigitsCore_length_le b n (n / b) [Nat.digitChar (n % b)]
    rw [hh] at hle
    simp at hle

lemma natRepr_ne_empty (n : Nat) : Nat.repr n ≠ "" := fun h =>
  toDigits_ne_nil 10 n (congrArg String.data h)

lemma intToString_ne_empty (n : Int) : toString n ≠ "" := by
  cases n with
  | ofNat m => exact natRepr_ne_empty m
  | negSucc m =>
    intro h
    exact List.cons_ne_nil _ _ (congrArg String.data h)

lemma upsert_fst_customerId (db : Db) (pid cid : String)
    (cust : Option String) (now : Nat) :
    (prismaUpsert db pid cid cust now).1.customerId = cust := by
  cases hfind : db.records.find? (keyMatches pid cid) <;>
    simp [prismaUpsert, hfind, updateRec, createRec]

lemma upsert_fst_mem (db : Db) (pid cid : String) (cust : Option String)
    (now : Nat) :
    (prismaUpsert db pid cid cust now).1 ∈
      (prismaUpsert db pid cid cust now).2.records := by
  cases hfind : db.records.find? (keyMatches pid cid) with
  | none => simp [prismaUpsert, hfind]
  | some r =>
    have hk := List.find?_some hfind
    have hmem := List.mem_of_find?_eq_some hfind
    have hmap : upsertMap pid cid cust now r = updateRec cust now r := by
      simp [upsertMap, hk]
    simp only [prismaUpsert, hfind]
    exact List.mem_map.mpr ⟨r, hmem, hmap⟩

/-- Record already present for the key of the end-to-end example before
the C8 scenario runs. -/
def recPrior : DbRecord :=
  { id := 0, productId := "prod-abc", cartId := "cart-1",
    customerId := some "old", isReserved := false, createdAt := 0,
    updatedAt := 0 }

/-- Database holding `recPrior`. -/
def dbPrior : Db := { records := [recPrior], nextId := 1 }

/-- C8 counterexample: two successful runs whose persisted records differ
(in `updatedAt`, written at times 1 and 2) produce identical responses,
so the success payload cannot be the full persisted record — the handler
copies only `id`, `productId`, `cartId`, `customerId`, `isReserved` and
`createdAt`, omitting `updatedAt`. -/
theorem success_omits_updatedAt :
    (action reqOk envOk dbPrior 1).1 = (action reqOk envOk dbPrior 2).1 ∧
    (action reqOk envOk dbPrior 1).2.1 ≠ (action reqOk envOk dbPrior 2).2.1 := by
  decide

/-- C8 amended: every success response has status 200 and carries the
projection (id, productId, cartId, customerId, isReserved, createdAt —
without `updatedAt`) of a record present in the final database, so the
generated `id` and `createdAt` are included; every failure response is
either the 400 validation failure (with its fixed error string and no
details) or has status 500. -/
theorem response_shape (req : ReservationRequest) (env : Env) (db : Db)
    (now : Nat) :
    (∀ s v, (action req env db now).1 = ActionResult.success s v →
      s = 200 ∧ ∃ r ∈ (action req env db now).2.1.records, v = toView r) ∧
    (∀ s e d, (action req env db now).1 = ActionResult.failure s e d →
      (s = 400 ∧ e = "Missing required fields: productId, cartId, or shop" ∧
        d = none) ∨ s = 500) := by
  refine ⟨?_, ?_⟩
  · intro s v hsv
    have hfull : action req env db now =
        (ActionResult.success s v, (action req env db now).2.1,
         (action req env db now).2.2) := by
      rw [← hsv]
    obtain ⟨pid, -, -, hs200, hv, hdb1⟩ :=
      action_success_inv _ _ _ _ _ _ _ _ hfull
    refine ⟨hs200, (prismaUpsert db pid req.cartId.jsToString
      (normalizeCustomerId req.customerId) now).1, ?_, hv⟩
    rw [hdb1]
    exact upsert_fst_mem db pid req.cartId.jsToString
      (normalizeCustomerId req.customerId) now
  · intro s e d hsd
    cases hg : (req.productId.truthy && req.cartId.truthy && req.shop.truthy) with
    | false =>
      simp [action, hg] at hsd
      exact Or.inl ⟨hsd.1.symm, hsd.2.1.symm, hsd.2.2.symm⟩
    | true =>
      cases hauth : env.authThrows with
      | some msg =>
        simp [action, hg, hauth, internalError] at hsd
        exact Or.inr hsd.1.symm
      | none =>
        cases hvq : env.variantQueryThrows with
        | some msg =>
          simp [action, hg, hauth, hvq, internalError] at hsd
          exact Or.inr hsd.1.symm
        | none =>
          cases hres : env.variantProductId (variantGid req) with
          | none =>
            simp [action, hg, hauth, hvq, hres, internalError] at hsd
            exact Or.inr hsd.1.symm
          | some pid =>
            by_cases hpid : pid = ""
            · simp [action, hg, hauth, hvq, hres, hpid, internalError] at hsd
              exact Or.inr hsd.1.symm
            · cases hmut : env.mutationThrows with
              | some msg =>
                simp [action, hg, hauth, hvq, hres, hpid, hmut,
                  internalError] at hsd
                exact Or.inr hsd.1.symm
              | none =>
                by_cases herr : 0 < (getUserErrors env.mutationResponse).length
                · simp [action, hg, hauth, hvq, hres, hpid, hmut, herr] at hsd
                  exact Or.inr hsd.1.symm
                · cases hup : env.upsertThrows with
                  | some msg =>
                    simp [action, hg, hauth, hvq, hres, hpid, hmut, herr,
                      hup, internalError] at hsd
                    exact Or.inr hsd.1.symm
                  | none =>
                    simp [action, hg, hauth, hvq, hres, hpid, hmut, herr,
                      hup] at hsd

/-- C8 amended, witness: the concrete successful run's payload is the
projection of a record in the final database. -/
theorem response_shape_witness :
    200 = 200 ∧ ∃ r ∈ (action reqOk envOk db0 5).2.1.records,
      toView recOk = toView r :=
  (response_shape reqOk envOk db0 5).1 200 (toView recOk) (by decide)

/-- Request of the end-to-end example with the numeric `customerId` 0. -/
def reqZeroCust : ReservationRequest := { reqOk with customerId := .vNum 0 }

/-- View produced for `reqZeroCust`: customerId is stored as the string
"0", not as null. -/
def viewZeroCust : ReservationView :=
  { id := 0, productId := "prod-abc", cartId := "cart-1",
    customerId := some "0", isReserved := true, createdAt := 4 }

/-- C9 counterexample: the claim says every falsy `customerId` (including
the number 0) is persisted as null, but `customerId?.toString()` converts
0 to the truthy string "0" before the `|| null` fallback is consulted, so
the persisted value is "0". -/
theorem customer_zero_not_null :
    reqZeroCust.customerId = .vNum 0 ∧
    (action reqZeroCust envOk db0 4).1 = .success 200 viewZeroCust ∧
    viewZeroCust.customerId = some "0" := by decide

/-- C9 amended: on a successful execution the persisted `customerId` is
the normalization of the supplied value: null for an absent, null or
empty-string `customerId`; for any other value its string coercion — a
number (even 0) is stored as its decimal string, a boolean as
"true"/"false", a non-empty string as itself. -/
theorem customer_normalization (req : ReservationRequest) (env : Env)
    (db : Db) (now : Nat) (pid : String)
    (hp : req.productId.truthy = true) (hc : req.cartId.truthy = true)
    (hs : req.shop.truthy = true)
    (ha : env.authThrows = none) (hv : env.variantQueryThrows = none)
    (hr : env.variantProductId (variantGid req) = some pid) (hpid : pid ≠ "")
    (hm : env.mutationThrows = none)
    (he : getUserErrors env.mutationResponse = [])
    (hu : env.upsertThrows = none) :
    (action req env db now).1 =
      ActionResult.success 200 (toView (prismaUpsert db pid
        req.cartId.jsToString (normalizeCustomerId req.customerId) now).1) ∧
    (prismaUpsert db pid req.cartId.jsToString
        (normalizeCustomerId req.customerId) now).1.customerId =
      normalizeCustomerId req.customerId ∧
    normalizeCustomerId .vNull = none ∧
    normalizeCustomerId .vUndefined = none ∧
    normalizeCustomerId (.vStr "") = none ∧
    (∀ n : Int, normalizeCustomerId (.vNum n) = some (toString n)) ∧
    (∀ b : Bool, normalizeCustomerId (.vBool b) =
      some (cond b "true" "false")) ∧
    (∀ s : String, s ≠ "" → normalizeCustomerId (.vStr s) = some s) := by
  refine ⟨?_, upsert_fst_customerId db pid req.cartId.jsToString
    (normalizeCustomerId req.customerId) now, rfl, rfl, by decide, ?_, ?_, ?_⟩
  · rw [action_success_eq req env db now pid hp hc hs ha hv hr hpid hm he hu]
  · intro n
    simp [normalizeCustomerId, JsValue.jsToString, intToString_ne_empty n]
  · intro b
    cases b <;> decide
  · intro s hs0
    simp [normalizeCustomerId, JsValue.jsToString, hs0]

/-- C9 amended, witness: the run with `customerId = 0` persists "0". -/
theorem customer_normalization_witness :
    (action reqZeroCust envOk db0 4).1 =
      ActionResult.success 200 (toView (prismaUpsert db0 "prod-abc"
        reqZeroCust.cartId.jsToString
        (normalizeCustomerId reqZeroCust.customerId) 4).1) ∧
    normalizeCustomerId reqZeroCust.customerId = some "0" :=
  ⟨(customer_normalization reqZeroCust envOk db0 4 "prod-abc" rfl rfl rfl
      rfl rfl rfl (by decide) rfl (by decide) rfl).1,
   by decide⟩

/-- Response shapes in which the `data.metafieldsSet.userErrors` path is
unavailable: the whole response, its `data`, its `metafieldsSet` or its
`userErrors` member is absent. -/
def pathMissing : Option MutationResponse → Prop
  | none => True
  | some resp =>
    match resp.data with
    | none => True
    | some d =>
      match d.metafieldsSet with
      | none => True
      | some p => p.userErrors = none

lemma pathMissing_userErrors (r : Option MutationResponse)
    (h : pathMissing r) : getUserErrors r = [] := by
  match r with
  | none => rfl
  | some resp =>
    match hd : resp.data with
    | none => simp [getUserErrors, hd]
    | some d =>
      match hm : d.metafieldsSet with
      | none => simp [getUserErrors, hd, hm]
      | some p =>
        simp only [pathMissing, hd, hm] at h
        simp [getUserErrors, hd, hm, h]

/-- C10: when the mutation response is absent or lacks the
`data.metafieldsSet.userErrors` path, the handler treats the user-error
list as empty and proceeds to the upsert and the success response. -/
theorem missing_path_proceeds (req : ReservationRequest) (env : Env)
    (db : Db) (now : Nat) (pid : String)
    (hp : req.productId.truthy = true) (hc : req.cartId.truthy = true)
    (hs : req.shop.truthy = true)
    (ha : env.authThrows = none) (hv : env.variantQueryThrows = none)
    (hr : env.variantProductId (variantGid req) = some pid) (hpid : pid ≠ "")
    (hm : env.mutationThrows = none)
    (hu : env.upsertThrows = none)
    (hpath : pathMissing env.mutationResponse) :
    getUserErrors env.mutationResponse = [] ∧
    action req env db now =
      (.success 200 (toView (prismaUpsert db pid req.cartId.jsToString
          (normalizeCustomerId req.customerId) now).1),
       (prismaUpsert db pid req.cartId.jsToString
          (normalizeCustomerId req.customerId) now).2,
       [.authenticate, .variantQuery (variantGid req),
        .metafieldsSet (metafields pid req.cartId.jsToString),
        .dbUpsert pid req.cartId.jsToString]) := by
  have he := pathMissing_userErrors env.mutationResponse hpath
  exact ⟨he, action_success_eq req env db now pid hp hc hs ha hv hr hpid hm he hu⟩

/-- Environment whose mutation response is entirely absent. -/
def envNoResponse : Env := { envOk with mutationResponse := none }

/-- C10 witness: with an absent mutation response the concrete run still
persists and succeeds. -/
theorem missing_path_proceeds_witness :
    pathMissing envNoResponse.mutationResponse ∧
    getUserErrors envNoResponse.mutationResponse = [] ∧
    action reqOk envNoResponse db0 6 =
      (.success 200 (toView (prismaUpsert db0 "prod-abc"
          reqOk.cartId.jsToString
          (normalizeCustomerId reqOk.customerId) 6).1),
       (prismaUpsert db0 "prod-abc" reqOk.cartId.jsToString
          (normalizeCustomerId reqOk.customerId) 6).2,
       [.authenticate, .variantQuery (variantGid reqOk),
        .metafieldsSet (metafields "prod-abc" reqOk.cartId.jsToString),
        .dbUpsert "prod-abc" reqOk.cartId.jsToString]) :=
  ⟨trivial,
   missing_path_proceeds reqOk envNoResponse db0 6 "prod-abc" rfl rfl rfl
     rfl rfl rfl (by decide) rfl rfl trivial⟩

end Reservation
